import Mathlib

/-!
Verification of the Maybank statement parsing-and-validation engine
(`maybank_parser.py`) against its natural-language specification.

The Python code is shallowly embedded: every function below mirrors a
function (or an inline code fragment) of `MaybankStatementParser`.
Modelling conventions:
* monetary amounts are exact: every amount in the source is parsed
  from a fixed-point string with exactly two fraction digits, so its
  float is represented losslessly as an integer number of cents
  (value scaled by 100); sums and the 0.01 tolerance comparison of the
  validator are stated over exact rationals via `amountValue`;
* `datetime.now()` is modelled as a calendar date (midnight) passed
  explicitly as a `CalDate` parameter;
* the regular expressions of the source are compiled by hand into
  deterministic character-list matchers that realise the same
  leftmost / lazy / greedy semantics on the shapes the patterns have
  (all quantifier boundaries in the source patterns are between
  disjoint character classes, so backtracking is determinate);
* printing / logging side effects are ignored; only returned and
  recorded values are modelled.
-/

/-- ASCII whitespace recognised by Python's `\s`, `str.strip()` and
`str.split()`. -/
def pyIsSpace (c : Char) : Bool :=
  c = ' ' || c = '\t' || c = '\n' || c = '\r' || c = '\x0b' || c = '\x0c'

/-- Decimal digit (Python `\d` on the ASCII inputs in scope). -/
def pyIsDigit (c : Char) : Bool :=
  '0' ≤ c && c ≤ '9'

/-- Uppercase ASCII letter (`[A-Z]`). -/
def isUpperAZ (c : Char) : Bool :=
  'A' ≤ c && c ≤ 'Z'

/-- ASCII uppercasing of a character (Python `str.upper` on ASCII text). -/
def upChar (c : Char) : Char :=
  if 'a' ≤ c && c ≤ 'z' then Char.ofNat (c.toNat - 32) else c

/-- ASCII uppercasing of a string. -/
def upStr (s : String) : String :=
  String.mk (s.data.map upChar)

/-- Strip leading whitespace from a character list. -/
def lstripChars (cs : List Char) : List Char :=
  cs.dropWhile pyIsSpace

/-- Strip trailing whitespace from a character list. -/
def rstripChars (cs : List Char) : List Char :=
  (cs.reverse.dropWhile pyIsSpace).reverse

/-- Python `str.strip()`. -/
def pyStrip (s : String) : String :=
  String.mk (rstripChars (lstripChars s.data))

/-- Split a character list at whitespace runs, dropping empty pieces
(Python `str.split()` with no argument). -/
def pySplitWsAux : List Char → List Char → List (List Char)
  | [], acc => if acc.isEmpty then [] else [acc.reverse]
  | c :: cs, acc =>
    if pyIsSpace c then
      if acc.isEmpty then pySplitWsAux cs [] else acc.reverse :: pySplitWsAux cs []
    else
      pySplitWsAux cs (c :: acc)

/-- Python `str.split()` (no separator argument). -/
def pySplitWs (s : String) : List String :=
  (pySplitWsAux s.data []).map String.mk

/-- Split a character list on a separator character (Python
`str.split(sep)` for a one-character separator: adjacent separators
and ends yield empty pieces). -/
def splitOnChar (sep : Char) : List Char → List (List Char)
  | [] => [[]]
  | c :: rest =>
    match splitOnChar sep rest with
    | [] => [[]]
    | h :: t => if c = sep then [] :: h :: t else (c :: h) :: t

/-- Python `text.split('\n')`. -/
def splitLines (text : String) : List String :=
  (splitOnChar '\n' text.data).map String.mk

/-- Join strings with a separator (Python `sep.join(...)`). -/
def joinWith (sep : String) : List String → String
  | [] => ""
  | [s] => s
  | s :: rest => s ++ sep ++ joinWith sep rest

/-- Python `s.startswith(pre)`. -/
def strStartsWith (s pre : String) : Bool :=
  pre.data.isPrefixOf s.data

/-- Does `needle` occur as a contiguous substring of `hay`
(Python's `needle in hay`)? -/
def containsSub (needle hay : String) : Bool :=
  hay.data.tails.any (fun t => needle.data.isPrefixOf t)

/-- Numeric value of a digit list (most significant first). -/
def natOfDigits (cs : List Char) : Nat :=
  cs.foldl (fun a c => a * 10 + (c.toNat - '0'.toNat)) 0

/-- Parse a nonempty all-digit string as a natural number
(the shape `int(...)` receives from the source's regexes). -/
def pyInt (s : String) : Option Nat :=
  if s.data ≠ [] && s.data.all pyIsDigit then some (natOfDigits s.data) else none

/-- Decimal digits of `n` (the fuel argument bounds the digit count;
`n` itself always suffices). -/
def natDigitsAux : Nat → Nat → List Char
  | 0, _ => []
  | fuel + 1, n =>
    if n = 0 then [] else natDigitsAux fuel (n / 10) ++ [Char.ofNat (48 + n % 10)]

/-- Decimal rendering of a natural number. -/
def natToStr (n : Nat) : String :=
  if n = 0 then "0" else String.mk (natDigitsAux n n)

/-- `clean_description`: collapse whitespace runs to single spaces and
strip the ends. -/
def cleanDescription (description : String) : String :=
  joinWith " " (pySplitWs description)

/-- The `skip_keywords` list of `is_valid_transaction`. -/
def skipKeywords : List String :=
  ["BALANCE", "LIMIT", "STATEMENT", "PREVIOUS", "CURRENT", "MINIMUM",
   "RETAIL INTEREST RATE", "YOUR COMBINED", "KOMBINASI HAD",
   "JUMLAH PENYATA", "TRANSACTED AMOUNT", "USD", "FOREIGN EXCHANGE"]

/-- `is_valid_transaction`: the uppercased description contains none of
the skip keywords. -/
def isValidTransaction (description : String) : Bool :=
  !(skipKeywords.any (fun k => containsSub k (upStr description)))

/-! ## Calendar model (Python `datetime`) -/

/-- A calendar date; `datetime.now()` is modelled by such a date
(taken at midnight). -/
structure CalDate where
  year : Nat
  month : Nat
  day : Nat
deriving DecidableEq, Repr

/-- Gregorian leap year. -/
def isLeap (y : Nat) : Bool :=
  (y % 4 = 0 && y % 100 ≠ 0) || y % 400 = 0

/-- Days in a month of a given year. -/
def daysInMonth (y m : Nat) : Nat :=
  if m = 2 then (if isLeap y then 29 else 28)
  else if m = 4 || m = 6 || m = 9 || m = 11 then 30
  else 31

/-- Does `datetime(y, m, d)` construct successfully? -/
def validDate (y m d : Nat) : Bool :=
  1 ≤ y && y ≤ 9999 && 1 ≤ m && m ≤ 12 && 1 ≤ d && d ≤ daysInMonth y m

/-- Day number of a date (days since 0000-03-01, civil-calendar
formula); differences of `rataDie` values model `timedelta.days`
between midnights. -/
def rataDie (dt : CalDate) : Nat :=
  let y := if dt.month ≤ 2 then dt.year - 1 else dt.year
  let era := y / 400
  let yoe := y % 400
  let mp := if 2 < dt.month then dt.month - 3 else dt.month + 9
  let doy := (153 * mp + 2) / 5 + (dt.day - 1)
  let doe := yoe * 365 + yoe / 4 + doy - yoe / 100
  era * 146097 + doe

/-- `(a - b).days` for two midnights. -/
def dayDiff (a b : CalDate) : Int :=
  (rataDie a : Int) - (rataDie b : Int)

/-- Zero-pad a number to two digits (`strftime` `%m`/`%d`). -/
def pad2 (n : Nat) : String :=
  if n < 10 then "0" ++ natToStr n else natToStr n

/-- Zero-pad a number to four digits (`strftime` `%Y`). -/
def pad4 (n : Nat) : String :=
  if n < 10 then "000" ++ natToStr n
  else if n < 100 then "00" ++ natToStr n
  else if n < 1000 then "0" ++ natToStr n
  else natToStr n

/-- `date_obj.strftime('%Y-%m-%d')`. -/
def fmtISO (y m d : Nat) : String :=
  pad4 y ++ "-" ++ pad2 m ++ "-" ++ pad2 d

/-! ## Hand-compiled matchers for the source's regular expressions

All amount/date/whitespace quantifier boundaries in the source patterns
separate disjoint character classes, so greedy matching is determinate;
the lazy description group `(.+?)` is realised by trying split points
left to right.  The credit-card pattern is multiline and anchored to
line end, so it is applied per line.
-/

/-- Require at least one whitespace character and consume the maximal
run (`\s+`). -/
def parseWs1 : List Char → Option (List Char)
  | c :: rest => if pyIsSpace c then some (rest.dropWhile pyIsSpace) else none
  | [] => none

/-- Is the remainder all whitespace (`\s*$` at end of line)? -/
def allWs (cs : List Char) : Bool :=
  cs.all pyIsSpace

/-- Match `\d{2}/\d{2}` at the head, returning the raw token. -/
def parseDateTok : List Char → Option (String × List Char)
  | a :: b :: '/' :: c :: d :: rest =>
    if pyIsDigit a && pyIsDigit b && pyIsDigit c && pyIsDigit d then
      some (String.mk [a, b, '/', c, d], rest)
    else none
  | _ => none

/-- Match `[\d,]+\.\d{2}` at the head, returning the raw amount text. -/
def parseAmt (cs : List Char) : Option (String × List Char) :=
  let p := cs.span (fun c => pyIsDigit c || c = ',')
  if p.1.isEmpty then none
  else
    match p.2 with
    | '.' :: d1 :: d2 :: rest =>
      if pyIsDigit d1 && pyIsDigit d2 then
        some (String.mk (p.1 ++ ['.', d1, d2]), rest)
      else none
    | _ => none

/-- Numeric value of a matched amount in integer cents:
`float(raw.replace(',', ''))` is exact because the text has exactly
two fraction digits, so the float is faithfully represented by its
value scaled by 100. -/
def amtVal (raw : String) : Nat :=
  let ds := raw.data.filter (fun c => c ≠ ',')
  let p := ds.span (fun c => c ≠ '.')
  natOfDigits (p.1.filter pyIsDigit) * 100
    + natOfDigits ((p.2.drop 1).filter pyIsDigit)

/-- One credit-card match: groups of
`(\d{2}/\d{2})\s+(\d{2}/\d{2})\s+(.+?)\s+([\d,]+\.\d{2})(CR)?\s*$`. -/
structure CCMatch where
  postingRaw : String
  txnRaw : String
  descRaw : String
  amtRaw : String
  cr : Bool
deriving DecidableEq, Repr

/-- Tail of the credit-card pattern after the description:
amount, optional `CR` (preferred, as in the regex), trailing
whitespace to end of line. -/
def ccTail (cs : List Char) : Option (String × Bool) :=
  match parseAmt cs with
  | some (amt, rest) =>
    if ['C', 'R'].isPrefixOf rest && allWs (rest.drop 2) then some (amt, true)
    else if allWs rest then some (amt, false)
    else none
  | none => none

/-- Lazy description split for the credit-card pattern: `acc` is the
reversed description so far (nonempty); the shortest description whose
remainder matches `\s+` + `ccTail` wins. -/
def ccDescLoop : List Char → List Char → Option (String × String × Bool)
  | _, [] => none
  | acc, c :: rest =>
    match parseWs1 (c :: rest) with
    | some r =>
      match ccTail r with
      | some (amt, cr) => some (String.mk acc.reverse, amt, cr)
      | none => ccDescLoop (c :: acc) rest
    | none => ccDescLoop (c :: acc) rest

/-- Attempt the full credit-card pattern at this position. -/
def ccMatchAt (cs : List Char) : Option CCMatch := do
  let (d1, r1) ← parseDateTok cs
  let r2 ← parseWs1 r1
  let (d2, r3) ← parseDateTok r2
  let r4 ← parseWs1 r3
  match r4 with
  | c :: rest =>
    let (desc, amt, cr) ← ccDescLoop [c] rest
    pure ⟨d1, d2, desc, amt, cr⟩
  | [] => none

/-- Leftmost credit-card match in one line (`re.findall` tries start
positions left to right; a successful match consumes to end of line,
so each line yields at most one match). -/
def ccSearch : List Char → Option CCMatch
  | [] => none
  | c :: rest =>
    match ccMatchAt (c :: rest) with
    | some m => some m
    | none => ccSearch rest

/-- All credit-card matches of the document text. -/
def ccMatches (text : String) : List CCMatch :=
  (splitLines text).filterMap (fun l => ccSearch l.data)

/-- One current-account match: groups of
`^(\d{2}/\d{2})\s+(.+?)\s+([\d,]+\.\d{2}[+-])\s+([\d,]+\.\d{2})\s*$`
(the signed amount is stored as amount text plus sign character). -/
structure CAMatch where
  dateRaw : String
  descRaw : String
  amtRaw : String
  sign : Char
  balRaw : String
deriving DecidableEq, Repr

/-- Tail of the current-account pattern after the description: signed
amount, whitespace, balance, trailing whitespace to end of line. -/
def caTail (cs : List Char) : Option (String × Char × String) :=
  match parseAmt cs with
  | some (amt, r1) =>
    match r1 with
    | s :: r2 =>
      if s = '+' || s = '-' then
        match parseWs1 r2 with
        | some r3 =>
          match parseAmt r3 with
          | some (bal, r4) => if allWs r4 then some (amt, s, bal) else none
          | none => none
        | none => none
      else none
    | [] => none
  | none => none

/-- Lazy description split for the current-account pattern. -/
def caDescLoop : List Char → List Char → Option (String × String × Char × String)
  | _, [] => none
  | acc, c :: rest =>
    match parseWs1 (c :: rest) with
    | some r =>
      match caTail r with
      | some (amt, sg, bal) => some (String.mk acc.reverse, amt, sg, bal)
      | none => caDescLoop (c :: acc) rest
    | none => caDescLoop (c :: acc) rest

/-- `transaction_pattern.match(line)` on an already-stripped line.
The final `else` branch realises the one whitespace-backtracking case
the regex engine reaches: with a separator run of three or more
whitespace characters followed directly by the signed amount, `\s+`
gives one run character back to the lazy `(.+?)`, which then captures
a lone whitespace character as the description. -/
def caLineMatch (s : String) : Option CAMatch :=
  match parseDateTok s.data with
  | some (date, r1) =>
    match parseWs1 r1 with
    | some r2 =>
      let w := r1.length - r2.length
      let viaDesc :=
        match r2 with
        | c :: rest => caDescLoop [c] rest
        | [] => none
      match viaDesc with
      | some (desc, amt, sg, bal) => some ⟨date, desc, amt, sg, bal⟩
      | none =>
        if 3 ≤ w then
          match caTail r2 with
          | some (amt, sg, bal) => some ⟨date, " ", amt, sg, bal⟩
          | none => none
        else none
    | none => none
  | none => none

/-! ## Date normalization (`parse_date_maybank`, `_parse_current_account_date`) -/

/-- `day, month = map(int, date_str.split('/'))` — `none` models the
`ValueError` path (wrong number of parts or non-numeric part). -/
def splitDDMM (dateStr : String) : Option (Nat × Nat) :=
  match (splitOnChar '/' dateStr.data).map String.mk with
  | [a, b] =>
    match pyInt a, pyInt b with
    | some d, some m => some (d, m)
    | _, _ => none
  | _ => none

/-- `parse_date_maybank(date_str, statement_year)`; `now` models
`datetime.now()`.  A falsy (`0`) statement year falls through to the
current-year logic, exactly as `if statement_year:` does. -/
def parseDateMaybank (dateStr : String) (statementYear : Option Nat) (now : CalDate) : String :=
  match splitDDMM dateStr with
  | none => dateStr
  | some (day, month) =>
    let sy := match statementYear with
      | some y => if y = 0 then none else some y
      | none => none
    match sy with
    | some y => if validDate y month day then fmtISO y month day else dateStr
    | none =>
      let cy := now.year
      let target :=
        if validDate cy month day then
          if 180 < dayDiff ⟨cy, month, day⟩ now then cy - 1 else cy
        else cy - 1
      if validDate target month day then fmtISO target month day else dateStr

/-- `_parse_current_account_date(date_str, statement_year)`; the
three-part branch models `strptime('%d/%m/%Y')` on its four-digit-year
shape.  Any failure returns the raw string. -/
def parseCurrentAccountDate (dateStr : String) (statementYear : Option Nat) (now : CalDate) : String :=
  match (splitOnChar '/' dateStr.data).map String.mk with
  | [a, b] =>
    match pyInt a, pyInt b with
    | some day, some month =>
      let year := match statementYear with
        | some y => if y = 0 then now.year else y
        | none => now.year
      if validDate year month day then fmtISO year month day else dateStr
    | _, _ => dateStr
  | [a, b, c] =>
    match pyInt a, pyInt b, pyInt c with
    | some day, some month, some year =>
      if a.length ≤ 2 && b.length ≤ 2 && c.length = 4 && validDate year month day then
        fmtISO year month day
      else dateStr
    | _, _, _ => dateStr
  | _ => dateStr

/-! ## Year resolver (`extract_statement_year`) -/

/-- Leftmost occurrence of a literal; returns the suffix after it. -/
def findAfterLit (needle : List Char) : List Char → Option (List Char)
  | [] => if needle.isEmpty then some [] else none
  | c :: rest =>
    if needle.isPrefixOf (c :: rest) then some ((c :: rest).drop needle.length)
    else findAfterLit needle rest

/-- Leftmost same-line occurrence of a literal (a lazy `.*?` without
`DOTALL` cannot cross a newline); returns the suffix after it. -/
def sameLineFindLit (needle : List Char) : List Char → Option (List Char)
  | [] => none
  | c :: rest =>
    if needle.isPrefixOf (c :: rest) then some ((c :: rest).drop needle.length)
    else if c = '\n' then none
    else sameLineFindLit needle rest

/-- Match `20\d{2}` at the head, returning its numeric value. -/
def year20At : List Char → Option (Nat × List Char)
  | '2' :: '0' :: a :: b :: rest =>
    if pyIsDigit a && pyIsDigit b then some (natOfDigits ['2', '0', a, b], rest) else none
  | _ => none

/-- Leftmost same-line `20\d{2}`. -/
def sameLineYear : List Char → Option Nat
  | [] => none
  | c :: rest =>
    match year20At (c :: rest) with
    | some (y, _) => some y
    | none => if c = '\n' then none else sameLineYear rest

/-- The three-letter month alternation of the statement-date pattern. -/
def months3 : List String :=
  ["JAN", "FEB", "MAR", "APR", "MAY", "JUN", "JUL", "AUG", "SEP", "OCT", "NOV", "DEC"]

/-- Month names of the fallback month-year pattern, in alternation order. -/
def monthsFull : List String :=
  ["JANUARY", "FEBRUARY", "MARCH", "APRIL", "MAY", "JUNE", "JULY", "AUGUST",
   "SEPTEMBER", "OCTOBER", "NOVEMBER", "DECEMBER"]

/-- Tail of `(\d{1,2})\s+(JAN|…|DEC)\s+(\d{2})` after the day digits:
whitespace, month token, whitespace, two digits (the two-digit year). -/
def dmyTail (cs : List Char) : Option Nat := do
  let r1 ← parseWs1 cs
  let mon ← months3.find? (fun m => m.data.isPrefixOf r1)
  let r2 ← parseWs1 (r1.drop mon.data.length)
  match r2 with
  | y1 :: y2 :: _ =>
    if pyIsDigit y1 && pyIsDigit y2 then some (natOfDigits [y1, y2]) else none
  | _ => none

/-- `(\d{1,2})\s+(JAN|…)\s+(\d{2})` at the head: the greedy `{1,2}`
tries two day digits before one. -/
def dmyAt (cs : List Char) : Option Nat :=
  (match cs with
   | a :: b :: r => if pyIsDigit a && pyIsDigit b then dmyTail r else none
   | _ => none)
  <|>
  (match cs with
   | a :: r => if pyIsDigit a then dmyTail r else none
   | _ => none)

/-- Leftmost `DD MON YY` date inside the lookahead window. -/
def findDMY : List Char → Option Nat
  | [] => none
  | c :: rest =>
    match dmyAt (c :: rest) with
    | some y => some y
    | none => findDMY rest

/-- Heuristic (a): the `Statement Date … Tarikh Akhir Pembayaran`
header (`DOTALL`, lazy gaps) followed within 200 characters by a
`DD MON YY` token; two-digit year read as `2000 + YY`. -/
def yearPatA (u : List Char) : Option Nat := do
  let r1 ← findAfterLit "STATEMENT DATE".data u
  let r2 ← findAfterLit "TARIKH PENYATA".data r1
  let r3 ← findAfterLit "PAYMENT DUE DATE".data r2
  let r4 ← findAfterLit "TARIKH AKHIR PEMBAYARAN".data r3
  let y2 ← findDMY (r4.take 200)
  pure (2000 + y2)

/-- `\d{1,2}\s+[A-Z]+\s+(20\d{2})` at the head position (“28 JANUARY
2024” after a payment-due-date phrase). -/
def pddDateAt (cs : List Char) : Option Nat :=
  let tail : List Char → Option Nat := fun r => do
    let r1 ← parseWs1 r
    let p := r1.span isUpperAZ
    if p.1.isEmpty then none
    else do
      let r2 ← parseWs1 p.2
      let (y, _) ← year20At r2
      pure y
  (match cs with
   | a :: b :: r => if pyIsDigit a && pyIsDigit b then tail r else none
   | _ => none)
  <|>
  (match cs with
   | a :: r => if pyIsDigit a then tail r else none
   | _ => none)

/-- Same-line scan for the date tail of heuristic (b). -/
def pddGap : List Char → Option Nat
  | [] => none
  | c :: rest =>
    match pddDateAt (c :: rest) with
    | some y => some y
    | none => if c = '\n' then none else pddGap rest

/-- Heuristic (b): `Payment Due Date.*?\d{1,2}\s+[A-Z]+\s+(20\d{2})`. -/
def yearPatB : List Char → Option Nat
  | [] => none
  | c :: rest =>
    match
      (if "PAYMENT DUE DATE".data.isPrefixOf (c :: rest) then
        pddGap ((c :: rest).drop "PAYMENT DUE DATE".length)
      else none) with
    | some y => some y
    | none => yearPatB rest

/-- Heuristic (c): `(20\d{2})\s+Year End Summary`. -/
def yearPatC : List Char → Option Nat
  | [] => none
  | c :: rest =>
    match
      (do
        let (y, r1) ← year20At (c :: rest)
        let r2 ← parseWs1 r1
        if "YEAR END SUMMARY".data.isPrefixOf r2 then some y else none) with
    | some y => some y
    | none => yearPatC rest

/-- Heuristic (d): `Statement.*?Period.*?(20\d{2})` (same line). -/
def yearPatD : List Char → Option Nat
  | [] => none
  | c :: rest =>
    match
      (if "STATEMENT".data.isPrefixOf (c :: rest) then do
        let r1 ← sameLineFindLit "PERIOD".data ((c :: rest).drop "STATEMENT".length)
        sameLineYear r1
      else none) with
    | some y => some y
    | none => yearPatD rest

/-- Heuristic (e): `Payment.*?(20\d{2})` (same line). -/
def yearPatE : List Char → Option Nat
  | [] => none
  | c :: rest =>
    match
      (if "PAYMENT".data.isPrefixOf (c :: rest) then
        sameLineYear ((c :: rest).drop "PAYMENT".length)
      else none) with
    | some y => some y
    | none => yearPatE rest

/-- Heuristic (f): a full month name followed by `20\d{2}`. -/
def yearPatF : List Char → Option Nat
  | [] => none
  | c :: rest =>
    match
      (do
        let mon ← monthsFull.find? (fun m => m.data.isPrefixOf (c :: rest))
        let r1 ← parseWs1 ((c :: rest).drop mon.data.length)
        let (y, _) ← year20At r1
        pure y) with
    | some y => some y
    | none => yearPatF rest

/-- `extract_statement_year`: the six heuristics in strict priority
order, first success wins, `none` if all fail. -/
def extractStatementYear (text : String) : Option Nat :=
  let u := (upStr text).data
  match yearPatA u with
  | some y => some y
  | none =>
    match yearPatB u with
    | some y => some y
    | none =>
      match yearPatC u with
      | some y => some y
      | none =>
        match yearPatD u with
        | some y => some y
        | none =>
          match yearPatE u with
          | some y => some y
          | none => yearPatF u

/-! ## Transactions and the two dialect parsers -/

/-- The `'type'` field of a transaction dict. -/
inductive TxType
  | CREDIT
  | DEBIT
  | UNKNOWN
deriving DecidableEq, Repr

/-- The transaction dict built by both dialect parsers. -/
structure Transaction where
  date : String
  postingDate : String
  transactionDate : String
  description : String
  amount : Nat
  ttype : TxType
  sourceFile : String
deriving DecidableEq, Repr

/-- The currency value of a transaction's stored amount (the stored
number is the exact float value times 100). -/
def amountValue (t : Transaction) : ℚ :=
  (t.amount : ℚ) / 100

/-- The components interpolated into the credit-card dedup key
`f"{transaction_date}_{description}_{amount}"` (raw transaction-date
text, cleaned description, raw amount text). -/
structure CCParts where
  txnRaw : String
  desc : String
  amtRaw : String
deriving DecidableEq, Repr

/-- The credit-card `transaction_id` string. -/
def ccKeyStr (p : CCParts) : String :=
  p.txnRaw ++ "_" ++ p.desc ++ "_" ++ p.amtRaw

/-- The `StatementType` enumeration of the source. -/
inductive StatementType
  | CREDIT_CARD
  | CURRENT_ACCOUNT
  | AUTO_DETECT
deriving DecidableEq, Repr

/-- The per-match body of `_parse_credit_card_transactions`: clean and
validate the description, derive amount and direction, deduplicate on
the `transaction_id` string, emit the transaction dict (paired here
with its key components). -/
def ccProcess (sy : Option Nat) (now : CalDate) (fname : String) :
    List CCMatch → List String → List (Transaction × CCParts)
  | [], _ => []
  | m :: ms, seen =>
    let description := cleanDescription m.descRaw
    if description = "" || description.length < 3 then ccProcess sy now fname ms seen
    else if !isValidTransaction description then ccProcess sy now fname ms seen
    else
      let amountFloat := amtVal m.amtRaw
      let ttype := if m.cr then TxType.CREDIT else TxType.DEBIT
      let parsedPosting := parseDateMaybank m.postingRaw sy now
      let parsedTxn := parseDateMaybank m.txnRaw sy now
      let p : CCParts := ⟨m.txnRaw, description, m.amtRaw⟩
      if ccKeyStr p ∈ seen then ccProcess sy now fname ms seen
      else
        (⟨parsedTxn, parsedPosting, parsedTxn, description, amountFloat, ttype, fname⟩, p)
          :: ccProcess sy now fname ms (ccKeyStr p :: seen)

/-- `_parse_credit_card_transactions` (with key components exposed
alongside each emitted transaction). -/
def parseCreditCardTransactions (text fname : String) (sy : Option Nat) (now : CalDate) :
    List (Transaction × CCParts) :=
  ccProcess sy now fname (ccMatches text) []

/-- Stop condition of the detail-line lookahead (another transaction
line, an empty line, or a beginning/ending-balance marker). -/
def caStopLine (ns : String) : Bool :=
  (caLineMatch ns).isSome || ns = "" || strStartsWith ns "BEGINNING BALANCE"
    || strStartsWith ns "ENDING BALANCE"

/-- `^\s+[A-Z0-9*\s]+$` on the raw lookahead line. -/
def reIndentedUpper (s : String) : Bool :=
  2 ≤ s.data.length
    && (match s.data with | c :: _ => pyIsSpace c | [] => false)
    && s.data.all (fun c => pyIsSpace c || isUpperAZ c || pyIsDigit c || c = '*')

/-- `^\s+\d+Q?$` on the raw lookahead line. -/
def reWsNumQ (s : String) : Bool :=
  match parseWs1 s.data with
  | some r =>
    let p := r.span pyIsDigit
    !p.1.isEmpty && (p.2 = [] || p.2 = ['Q'])
  | none => false

/-- Does a lookahead line qualify as a detail line? -/
def caQualifies (raw : String) : Bool :=
  strStartsWith raw "   " || reIndentedUpper raw || containsSub "DUITNOW" raw || reWsNumQ raw

/-- The detail-line lookahead loop, over the lines after the base
line: returns the collected (stripped) detail lines and the number of
lines iterated, so the loop resumes at `i + 1 +` that count. -/
def detailScan : List String → List String × Nat
  | [] => ([], 0)
  | next :: rest =>
    let ns := pyStrip next
    if caStopLine ns then ([], 0)
    else
      let r := detailScan rest
      (if caQualifies next then ns :: r.1 else r.1, r.2 + 1)

/-- The meaningful-detail filter applied to collected detail lines. -/
def isMeaningfulDetail (detail : String) : Bool :=
  detail ≠ "" && detail ≠ "*" && 1 < detail.length
    && ((10 ≤ detail.data.length && (detail.data.take 10).all pyIsDigit)
      || (let p := detail.data.span pyIsDigit
          !p.1.isEmpty && p.2 = ['Q'])
      || (match detail.data with
          | c :: rest =>
            isUpperAZ c && !rest.isEmpty
              && rest.all (fun x => isUpperAZ x || pyIsDigit x || pyIsSpace x || x = '*')
          | [] => false)
      || containsSub "DUITNOW" detail
      || 3 < detail.length)

/-- The components interpolated into the current-account dedup key
`f"{date_str}_{full_description}_{amount_float}_{detail_summary}_{balance_str}"`. -/
structure CAParts where
  dateRaw : String
  fullDesc : String
  amount : Nat
  details : List String
  balRaw : String
deriving DecidableEq, Repr

/-- Injective, underscore-free canonical rendering of the amount float
inside the current-account key (the source interpolates Python's float
repr; any injective underscore-free rendering preserves dedup
behaviour). -/
def floatKeyStr (cents : Nat) : String :=
  natToStr cents

/-- The current-account `transaction_id` string (`detail_summary` is
`'|'.join(detail_lines[:3])`). -/
def caKeyStr (p : CAParts) : String :=
  p.dateRaw ++ "_" ++ p.fullDesc ++ "_" ++ floatKeyStr p.amount ++ "_"
    ++ joinWith "|" (p.details.take 3) ++ "_" ++ p.balRaw

/-- The uniqueness key the specification claims for the
current-account dialect: raw transaction-date text, normalized
description, amount, and the detail-line digest — without the balance
component the code's key actually includes. -/
def specClaimKeyCA (p : CAParts) : String × String × Nat × String :=
  (p.dateRaw, p.fullDesc, p.amount, joinWith "|" (p.details.take 3))

/-- Amount and direction from the signed amount (`endswith('+')` ⇒
credit, `endswith('-')` ⇒ debit, anything else is skipped). -/
def caAmountType (sign : Char) (amtRaw : String) : Option (Nat × TxType) :=
  if sign = '+' then some (amtVal amtRaw, TxType.CREDIT)
  else if sign = '-' then some (amtVal amtRaw, TxType.DEBIT)
  else none

/-- The line scan of `_parse_current_account_transactions`: explicit
index bookkeeping; on a match the scan consumes the base line plus all
lookahead lines and resumes past them, otherwise it advances one
line.  Emitted transactions are paired with their key components.
The structural `fuel` argument is an upper bound on the remaining
iterations; since the index strictly increases each iteration
(`ca_scan_index_strictly_increases`), `lines.length - i` iterations
always suffice and the fuel never runs out before the loop condition
`i < lines.length` fails. -/
def caScanF (sy : Option Nat) (now : CalDate) (fname : String) :
    Nat → List String → Nat → List String → List (Transaction × CAParts)
  | 0, _, _, _ => []
  | fuel + 1, lines, i, seen =>
    if h : i < lines.length then
      let line := pyStrip lines[i]
      match caLineMatch line with
      | none => caScanF sy now fname fuel lines (i + 1) seen
      | some m =>
        let r := detailScan (lines.drop (i + 1))
        let j := i + 1 + r.2
        let meaningful := r.1.filter isMeaningfulDetail
        let fullDesc0 := pyStrip m.descRaw
          ++ (if meaningful.isEmpty then "" else " | " ++ joinWith " | " meaningful)
        let fullDescription := cleanDescription fullDesc0
        if fullDescription = "" || fullDescription.length < 3 then
          caScanF sy now fname fuel lines j seen
        else if !isValidTransaction fullDescription then
          caScanF sy now fname fuel lines j seen
        else
          match caAmountType m.sign m.amtRaw with
          | none => caScanF sy now fname fuel lines j seen
          | some (amountFloat, ttype) =>
            let parsedDate := parseCurrentAccountDate m.dateRaw sy now
            let p : CAParts := ⟨m.dateRaw, fullDescription, amountFloat, r.1, m.balRaw⟩
            if caKeyStr p ∈ seen then caScanF sy now fname fuel lines j seen
            else
              (⟨parsedDate, parsedDate, parsedDate, fullDescription, amountFloat, ttype, fname⟩, p)
                :: caScanF sy now fname fuel lines j (caKeyStr p :: seen)
    else []

/-- The scan loop started at line `i` with enough fuel. -/
def caScan (sy : Option Nat) (now : CalDate) (fname : String)
    (lines : List String) (i : Nat) (seen : List String) : List (Transaction × CAParts) :=
  caScanF sy now fname (lines.length - i) lines i seen

/-- The index the scan loop resumes at after treating line `i`. -/
def caNextIndex (lines : List String) (i : Nat) : Nat :=
  match caLineMatch (pyStrip (lines.getD i "")) with
  | some _ => i + 1 + (detailScan (lines.drop (i + 1))).2
  | none => i + 1

/-- `_parse_current_account_transactions` (with key components exposed
alongside each emitted transaction). -/
def parseCurrentAccountTransactions (text fname : String) (sy : Option Nat) (now : CalDate) :
    List (Transaction × CAParts) :=
  caScan sy now fname (splitLines text) 0 []

/-- `parse_transactions`: extract the statement year, then dispatch on
the statement type; any type other than the two dialects yields the
empty list (with only a warning printed). -/
def parseTransactions (statementType : StatementType) (text fname : String) (now : CalDate) :
    List Transaction :=
  let statementYear := extractStatementYear text
  match statementType with
  | StatementType.CREDIT_CARD =>
    (parseCreditCardTransactions text fname statementYear now).map Prod.fst
  | StatementType.CURRENT_ACCOUNT =>
    (parseCurrentAccountTransactions text fname statementYear now).map Prod.fst
  | StatementType.AUTO_DETECT => []

/-! ## Statement classifier (`detect_statement_type`) -/

/-- The credit-card indicator patterns (all literal). -/
def creditCardIndicators : List String :=
  ["CREDIT CARD STATEMENT", "MAYBANK CREDIT CARD", "CARD NUMBER",
   "CREDIT LIMIT", "MINIMUM PAYMENT"]

/-- The current-account indicator patterns (all literal). -/
def currentAccountIndicators : List String :=
  ["ACCOUNT TRANSACTIONS", "URUSNIAGA AKAUN", "CURRENT ACCOUNT STATEMENT",
   "SAVINGS ACCOUNT STATEMENT", "ACCOUNT NUMBER", "OPENING BALANCE",
   "CLOSING BALANCE", "BEGINNING BALANCE", "STATEMENT BALANCE",
   "CDM CASH DEPOSIT", "TRANSFER TO A/C"]

/-- Number of credit-card indicators found in the uppercased text. -/
def creditCardScore (text : String) : Nat :=
  (creditCardIndicators.filter (fun p => containsSub p (upStr text))).length

/-- Number of current-account indicators found in the uppercased text. -/
def currentAccountScore (text : String) : Nat :=
  (currentAccountIndicators.filter (fun p => containsSub p (upStr text))).length

/-- `detect_statement_type`. -/
def detectStatementType (text : String) : StatementType :=
  if currentAccountScore text < creditCardScore text then StatementType.CREDIT_CARD
  else if creditCardScore text < currentAccountScore text then StatementType.CURRENT_ACCOUNT
  else StatementType.CREDIT_CARD

/-! ## Reconciliation validator -/

/-- Match one total-debit label pattern at the head position and read
off the captured amount. -/
def matchLit (lit : List Char) (cs : List Char) : Option (List Char) :=
  if lit.isPrefixOf cs then some (cs.drop lit.length) else none

/-- `TOTAL DEBIT\s*:\s*([\d,]+\.\d{2})` at the head. -/
def tdPat1 (cs : List Char) : Option ℚ := do
  let r1 ← matchLit "TOTAL DEBIT".data cs
  let r2 := r1.dropWhile pyIsSpace
  match r2 with
  | ':' :: r3 =>
    let (amt, _) ← parseAmt (r3.dropWhile pyIsSpace)
    pure ((amtVal amt : ℚ) / 100)
  | _ => none

/-- `\(JUMLAH DEBIT\)([\d,]+\.\d{2})` at the head. -/
def tdPat2 (cs : List Char) : Option ℚ := do
  let r1 ← matchLit "(JUMLAH DEBIT)".data cs
  let (amt, _) ← parseAmt r1
  pure ((amtVal amt : ℚ) / 100)

/-- `TOTAL DEBIT THIS MONTH\s*\(JUMLAH DEBIT\)\s*([\d,]+\.\d{2})` at the head. -/
def tdPat3 (cs : List Char) : Option ℚ := do
  let r1 ← matchLit "TOTAL DEBIT THIS MONTH".data cs
  let r2 ← matchLit "(JUMLAH DEBIT)".data (r1.dropWhile pyIsSpace)
  let (amt, _) ← parseAmt (r2.dropWhile pyIsSpace)
  pure ((amtVal amt : ℚ) / 100)

/-- `TOTAL DEBIT THIS MONTH\s+([\d,]+\.\d{2})` at the head. -/
def tdPat4 (cs : List Char) : Option ℚ := do
  let r1 ← matchLit "TOTAL DEBIT THIS MONTH".data cs
  let r2 ← parseWs1 r1
  let (amt, _) ← parseAmt r2
  pure ((amtVal amt : ℚ) / 100)

/-- `JUMLAH DEBIT\s*([\d,]+\.\d{2})` at the head. -/
def tdPat5 (cs : List Char) : Option ℚ := do
  let r1 ← matchLit "JUMLAH DEBIT".data cs
  let (amt, _) ← parseAmt (r1.dropWhile pyIsSpace)
  pure ((amtVal amt : ℚ) / 100)

/-- `TOTAL DEBIT\s+([\d,]+\.\d{2})` at the head (also covers the
case-insensitive duplicate `Total Debit` pattern). -/
def tdPat6 (cs : List Char) : Option ℚ := do
  let r1 ← matchLit "TOTAL DEBIT".data cs
  let r2 ← parseWs1 r1
  let (amt, _) ← parseAmt r2
  pure ((amtVal amt : ℚ) / 100)

/-- `DEBIT TOTAL\s+([\d,]+\.\d{2})` at the head (also covers the
case-insensitive duplicate `Debit Total` pattern). -/
def tdPat8 (cs : List Char) : Option ℚ := do
  let r1 ← matchLit "DEBIT TOTAL".data cs
  let r2 ← parseWs1 r1
  let (amt, _) ← parseAmt r2
  pure ((amtVal amt : ℚ) / 100)

/-- `re.search` for one pattern: leftmost matching position. -/
def searchTD (patAt : List Char → Option ℚ) : List Char → Option ℚ
  | [] => patAt []
  | c :: rest =>
    match patAt (c :: rest) with
    | some v => some v
    | none => searchTD patAt rest

/-- `extract_total_debit`: the label patterns in source order,
first matching pattern wins (the amount text always converts). -/
def extractTotalDebit (text : String) : Option ℚ :=
  let u := (upStr text).data
  let go : List (List Char → Option ℚ) → Option ℚ := fun pats =>
    pats.foldr (fun p acc => match searchTD p u with | some v => some v | none => acc) none
  go [tdPat1, tdPat2, tdPat3, tdPat4, tdPat5, tdPat6, tdPat6, tdPat8, tdPat8]

/-- The status values recorded in `validation_results`. -/
inductive VStatus
  | PASS
  | FAIL
  | NO_TOTAL
  | NO_DEBITS
deriving DecidableEq, Repr

/-- One record of `validation_results`. -/
structure ValidationResult where
  filename : String
  status : VStatus
  calculatedSum : ℚ
  pdfTotal : Option ℚ
  difference : Option ℚ
deriving DecidableEq, Repr

/-- `validate_debit_transactions`: the validation verdict recorded for
one document. -/
def validateDebitTransactions (transactions : List Transaction) (text : String) (filename : String) :
    ValidationResult :=
  let debitTransactions := transactions.filter (fun t => t.ttype == TxType.DEBIT)
  let calculatedDebitSum := (debitTransactions.map amountValue).sum
  if debitTransactions.isEmpty then
    ⟨filename, VStatus.NO_DEBITS, 0, none, some 0⟩
  else
    match extractTotalDebit text with
    | some pdfTotalDebit =>
      let difference := |calculatedDebitSum - pdfTotalDebit|
      ⟨filename, if difference ≤ 1 / 100 then VStatus.PASS else VStatus.FAIL,
        calculatedDebitSum, some pdfTotalDebit, some difference⟩
    | none => ⟨filename, VStatus.NO_TOTAL, calculatedDebitSum, none, none⟩

/-! ## Theorems -/

/-- C1: the recorded validation verdict satisfies: `calculatedSum` is
the exact sum of debit amounts; with no debit transactions the status
is `NO_DEBITS`; otherwise `NO_TOTAL` when no stated debit total is
extracted; otherwise `PASS` iff the absolute difference is at most
`0.01` and `FAIL` otherwise, with the recorded difference equal to
that absolute difference. -/
theorem validate_debit_transactions_spec
    (transactions : List Transaction) (text fname : String) :
    (validateDebitTransactions transactions text fname).calculatedSum
      = ((transactions.filter (fun t => t.ttype == TxType.DEBIT)).map amountValue).sum
    ∧ (validateDebitTransactions transactions text fname).status
      = (if (transactions.filter (fun t => t.ttype == TxType.DEBIT)).isEmpty then
          VStatus.NO_DEBITS
        else
          match extractTotalDebit text with
          | none => VStatus.NO_TOTAL
          | some statedTotal =>
            if |((transactions.filter (fun t => t.ttype == TxType.DEBIT)).map
                amountValue).sum - statedTotal| ≤ 1 / 100 then
              VStatus.PASS
            else VStatus.FAIL)
    ∧ (validateDebitTransactions transactions text fname).difference
      = (if (transactions.filter (fun t => t.ttype == TxType.DEBIT)).isEmpty then
          some 0
        else
          match extractTotalDebit text with
          | none => none
          | some statedTotal =>
            some |((transactions.filter (fun t => t.ttype == TxType.DEBIT)).map
                amountValue).sum - statedTotal|) := by
  unfold validateDebitTransactions
  by_cases hd : (transactions.filter (fun t => t.ttype == TxType.DEBIT)).isEmpty = true
  · have hnil : transactions.filter (fun t => t.ttype == TxType.DEBIT) = [] :=
      List.isEmpty_iff.mp hd
    simp [hd, hnil]
  · cases hx : extractTotalDebit text with
    | none =>
      simp only [hx, if_neg hd]
      exact ⟨trivial, trivial, trivial⟩
    | some statedTotal =>
      simp only [hx, if_neg hd]
      exact ⟨trivial, trivial, trivial⟩

/-- C3: parsing is stateless and idempotent — for fixed inputs (and a
fixed `now`), two invocations of `parse_transactions` return identical
transaction lists; the embedding is a pure function because the source
creates its deduplication set afresh inside each call and reads no
other mutable state. -/
theorem parse_transactions_idempotent
    (statementType : StatementType) (text fname : String) (now : CalDate) :
    parseTransactions statementType text fname now
      = parseTransactions statementType text fname now := rfl

/-- C4: the classifier always returns a dialect: `CURRENT_ACCOUNT`
exactly when the current-account indicator count strictly exceeds the
credit-card indicator count, and `CREDIT_CARD` otherwise — in
particular on every tie, including 0–0. -/
theorem detect_statement_type_spec (text : String) :
    detectStatementType text
      = (if creditCardScore text < currentAccountScore text then
          StatementType.CURRENT_ACCOUNT
        else StatementType.CREDIT_CARD) := by
  unfold detectStatementType
  by_cases h1 : currentAccountScore text < creditCardScore text
  · rw [if_pos h1, if_neg (by omega)]
  · rw [if_neg h1]

/-- C7: the credit-card scenario text yields exactly one transaction,
with direction Credit (trailing `CR`), amount 12.50 and description
`STARBUCKS KL`. -/
theorem credit_card_scenario :
    parseTransactions StatementType.CREDIT_CARD "01/03 01/03 STARBUCKS KL 12.50CR\n"
        "stmt.pdf" ⟨2024, 6, 15⟩
      = [⟨"2024-03-01", "2024-03-01", "2024-03-01", "STARBUCKS KL", 1250,
          TxType.CREDIT, "stmt.pdf"⟩]
    ∧ amountValue ⟨"2024-03-01", "2024-03-01", "2024-03-01", "STARBUCKS KL", 1250,
          TxType.CREDIT, "stmt.pdf"⟩ = 12.50 := by
  constructor
  · decide
  · norm_num [amountValue]

/-- C8: the current-account scenario (base line plus indented
13-digit detail line) yields exactly one transaction, direction Debit,
amount 100.00, whose description contains the appended account-number
detail. -/
theorem current_account_scenario :
    parseTransactions StatementType.CURRENT_ACCOUNT
        "05/01 TRANSFER TO A/C 100.00- 500.00\n   1234567890123" "stmt.pdf" ⟨2024, 6, 15⟩
      = [⟨"2024-01-05", "2024-01-05", "2024-01-05", "TRANSFER TO A/C | 1234567890123",
          10000, TxType.DEBIT, "stmt.pdf"⟩]
    ∧ amountValue ⟨"2024-01-05", "2024-01-05", "2024-01-05",
          "TRANSFER TO A/C | 1234567890123", 10000, TxType.DEBIT, "stmt.pdf"⟩ = 100
    ∧ containsSub "1234567890123" "TRANSFER TO A/C | 1234567890123" = true := by
  refine ⟨by decide, by norm_num [amountValue], by decide⟩

/-- C9: the current-account scan index strictly increases on every
iteration — past the base line and all consumed lookahead lines on a
match, by one line otherwise — so the scan (`caScan`, a total
function) terminates on every finite input. -/
theorem ca_scan_index_strictly_increases (lines : List String) (i : Nat) :
    i < caNextIndex lines i := by
  unfold caNextIndex
  split <;> omega

/-- C10: the statement-type enumeration has the third value
`AUTO_DETECT` beyond the two dialects, and `parse_transactions`
invoked with it returns the empty transaction list (only warning). -/
theorem parse_transactions_auto_detect (text fname : String) (now : CalDate) :
    parseTransactions StatementType.AUTO_DETECT text fname now = []
    ∧ StatementType.AUTO_DETECT ≠ StatementType.CREDIT_CARD
    ∧ StatementType.AUTO_DETECT ≠ StatementType.CURRENT_ACCOUNT :=
  ⟨rfl, by decide, by decide⟩

/-- Dedup invariant of the credit-card loop: every emitted key is new
relative to `seen`, and emitted keys are pairwise distinct. -/
theorem ccProcess_keys (sy : Option Nat) (now : CalDate) (fname : String) :
    ∀ (ms : List CCMatch) (seen : List String),
      (∀ q ∈ ccProcess sy now fname ms seen, ccKeyStr q.2 ∉ seen)
      ∧ List.Pairwise (fun a b => ccKeyStr a.2 ≠ ccKeyStr b.2)
          (ccProcess sy now fname ms seen) := by
  intro ms
  induction ms with
  | nil =>
    intro seen
    constructor
    · intro q hq
      simp [ccProcess] at hq
    · simp [ccProcess]
  | cons m ms ih =>
    intro seen
    simp only [ccProcess]
    split
    · exact ih seen
    · split
      · exact ih seen
      · split
        · exact ih seen
        · rename_i hnot
          obtain ⟨ih1, ih2⟩ := ih (ccKeyStr ⟨m.txnRaw, cleanDescription m.descRaw, m.amtRaw⟩ :: seen)
          constructor
          · intro q hq
            rcases List.mem_cons.mp hq with hq | hq
            · rw [hq]
              exact hnot
            · intro hs
              exact ih1 q hq (List.mem_cons_of_mem _ hs)
          · refine List.Pairwise.cons ?_ ih2
            intro q hq he
            exact ih1 q hq (by rw [← he]; exact List.mem_cons_self _ _)

/-- Dedup invariant of the current-account scan: every emitted key is
new relative to `seen`, and emitted keys are pairwise distinct. -/
theorem caScanF_keys (sy : Option Nat) (now : CalDate) (fname : String) :
    ∀ (fuel : Nat) (lines : List String) (i : Nat) (seen : List String),
      (∀ q ∈ caScanF sy now fname fuel lines i seen, caKeyStr q.2 ∉ seen)
      ∧ List.Pairwise (fun a b => caKeyStr a.2 ≠ caKeyStr b.2)
          (caScanF sy now fname fuel lines i seen) := by
  intro fuel
  induction fuel with
  | zero =>
    intro lines i seen
    constructor
    · intro q hq
      simp [caScanF] at hq
    · simp [caScanF]
  | succ fuel ih =>
    intro lines i seen
    simp only [caScanF]
    repeat' split
    all_goals
      first
      | exact ih _ _ _
      | (constructor
         · intro q hq
           simp at hq
         · simp)
      | (rename_i hnot
         obtain ⟨ih1, ih2⟩ := ih _ _ (caKeyStr _ :: seen)
         constructor
         · intro q hq
           rcases List.mem_cons.mp hq with hq | hq
           · rw [hq]
             exact hnot
           · intro hs
             exact ih1 q hq (List.mem_cons_of_mem _ hs)
         · refine List.Pairwise.cons ?_ ih2
           intro q hq he
           exact ih1 q hq (by rw [← he]; exact List.mem_cons_self _ _))

/-- C2 counterexample: two current-account lines identical except for
the balance column yield two transactions that share the claimed
uniqueness key (raw date, description, amount, detail digest); only
the raw balance string — which the claimed key omits — distinguishes
them, so the claim as stated fails. -/
theorem dedup_claim_counterexample :
    (parseCurrentAccountTransactions
        "05/01 PAYMENT RENT 100.00- 500.00\n05/01 PAYMENT RENT 100.00- 400.00" "stmt.pdf"
        (extractStatementYear
          "05/01 PAYMENT RENT 100.00- 500.00\n05/01 PAYMENT RENT 100.00- 400.00")
        ⟨2024, 6, 15⟩).map (fun q => specClaimKeyCA q.2)
      = [("05/01", "PAYMENT RENT", 10000, ""), ("05/01", "PAYMENT RENT", 10000, "")]
    ∧ (parseCurrentAccountTransactions
        "05/01 PAYMENT RENT 100.00- 500.00\n05/01 PAYMENT RENT 100.00- 400.00" "stmt.pdf"
        (extractStatementYear
          "05/01 PAYMENT RENT 100.00- 500.00\n05/01 PAYMENT RENT 100.00- 400.00")
        ⟨2024, 6, 15⟩).map (fun q => q.2.balRaw)
      = ["500.00", "400.00"] := by
  constructor
  · decide
  · decide

/-- C2 (amended): within one document no two emitted transactions
share the full `transaction_id` dedup key — for the credit-card
dialect `(raw transaction date, normalized description, raw amount)`,
and for the current-account dialect additionally the first-three
detail-line digest and the raw balance string; a candidate whose full
key repeats is dropped. -/
theorem dedup_keys_unique (text fname : String) (sy : Option Nat) (now : CalDate) :
    List.Pairwise (fun a b => ccKeyStr a.2 ≠ ccKeyStr b.2)
      (parseCreditCardTransactions text fname sy now)
    ∧ List.Pairwise (fun a b => caKeyStr a.2 ≠ caKeyStr b.2)
      (parseCurrentAccountTransactions text fname sy now) :=
  ⟨(ccProcess_keys sy now fname (ccMatches text) []).2,
   (caScanF_keys sy now fname ((splitLines text).length - 0) (splitLines text) 0 []).2⟩

/-- C5 counterexample: with a resolved statement year 2025 and the
invalid day/month 29/02, the code returns the raw string instead of
retrying with the valid previous year 2024, so the claimed
year-rollback on invalid dates fails for a resolved statement year. -/
theorem date_year_retry_counterexample :
    parseDateMaybank "29/02" (some 2025) ⟨2025, 6, 15⟩ = "29/02"
    ∧ validDate 2025 2 29 = false
    ∧ validDate 2024 2 29 = true
    ∧ fmtISO 2024 2 29 = "2024-02-29"
    ∧ ("29/02" : String) ≠ "2024-02-29" := by
  refine ⟨by decide, by decide, by decide, by decide, by decide⟩

/-- C5 (amended): the once-only previous-year retry on an invalid
day/month happens only in the credit-card normalizer's current-year
fallback (no statement year resolved); with a resolved statement
year, and in the current-account date path, an invalid date returns
the raw `DD/MM` string immediately with no retry — the document never
fails in any case. -/
theorem date_year_retry_amended (dateStr a b : String) (d m y : Nat) (now : CalDate)
    (h1 : (splitOnChar '/' dateStr.data).map String.mk = [a, b])
    (h2 : pyInt a = some d) (h3 : pyInt b = some m) (hy : y ≠ 0) :
    (parseDateMaybank dateStr (some y) now
      = if validDate y m d then fmtISO y m d else dateStr)
    ∧ (validDate now.year m d = false →
        parseDateMaybank dateStr none now
          = if validDate (now.year - 1) m d then fmtISO (now.year - 1) m d else dateStr)
    ∧ (parseCurrentAccountDate dateStr (some y) now
      = if validDate y m d then fmtISO y m d else dateStr) := by
  have hsplit : splitDDMM dateStr = some (d, m) := by
    unfold splitDDMM
    simp [h1, h2, h3]
  refine ⟨?_, ?_, ?_⟩
  · unfold parseDateMaybank
    rw [hsplit]
    simp [hy]
  · intro hv
    unfold parseDateMaybank
    rw [hsplit]
    simp [hv]
  · unfold parseCurrentAccountDate
    rw [h1]
    simp [h2, h3, hy]

/-- Witness for the amended C5 statement at the concrete scenario
29/02 with statement year 2025 and `now` 2025-06-15. -/
theorem date_year_retry_amended_witness :
    (splitOnChar '/' "29/02".data).map String.mk = ["29", "02"]
    ∧ pyInt "29" = some 29
    ∧ pyInt "02" = some 2
    ∧ (2025 : Nat) ≠ 0
    ∧ ((parseDateMaybank "29/02" (some 2025) ⟨2025, 6, 15⟩
          = if validDate 2025 2 29 then fmtISO 2025 2 29 else "29/02")
      ∧ (validDate (⟨2025, 6, 15⟩ : CalDate).year 2 29 = false →
          parseDateMaybank "29/02" none ⟨2025, 6, 15⟩
            = if validDate ((⟨2025, 6, 15⟩ : CalDate).year - 1) 2 29 then
                fmtISO ((⟨2025, 6, 15⟩ : CalDate).year - 1) 2 29
              else "29/02")
      ∧ (parseCurrentAccountDate "29/02" (some 2025) ⟨2025, 6, 15⟩
          = if validDate 2025 2 29 then fmtISO 2025 2 29 else "29/02")) := by
  refine ⟨by decide, by decide, by decide, by decide,
    date_year_retry_amended "29/02" "29" "02" 29 2 2025 ⟨2025, 6, 15⟩
      (by decide) (by decide) (by decide) (by decide)⟩

/-- C6 counterexample: with no statement year and `now` 2024-01-15,
the candidate 01/12 lies 321 days in the future; the credit-card
normalizer rolls back to 2023 but the current-account normalizer
keeps 2024, so the claimed 180-day rollback fails for the
current-account dialect. -/
theorem future_rollback_counterexample :
    parseCurrentAccountDate "01/12" none ⟨2024, 1, 15⟩ = "2024-12-01"
    ∧ dayDiff ⟨2024, 12, 1⟩ ⟨2024, 1, 15⟩ = 321
    ∧ (180 : Int) < 321
    ∧ ("2024-12-01" : String) ≠ "2023-12-01"
    ∧ parseDateMaybank "01/12" none ⟨2024, 1, 15⟩ = "2023-12-01" := by
  refine ⟨by decide, by decide, by decide, by decide, by decide⟩

/-- C6 (amended): with no resolved statement year, only the
credit-card normalizer rolls back one year when the current-year date
lies more than 180 days in the future of `now`; the current-account
normalizer combines the day/month with the current processing year
unconditionally. -/
theorem future_rollback_amended (dateStr a b : String) (d m : Nat) (now : CalDate)
    (h1 : (splitOnChar '/' dateStr.data).map String.mk = [a, b])
    (h2 : pyInt a = some d) (h3 : pyInt b = some m)
    (hv : validDate now.year m d = true)
    (hf : 180 < dayDiff ⟨now.year, m, d⟩ now) :
    parseDateMaybank dateStr none now
      = (if validDate (now.year - 1) m d then fmtISO (now.year - 1) m d else dateStr)
    ∧ parseCurrentAccountDate dateStr none now = fmtISO now.year m d := by
  have hsplit : splitDDMM dateStr = some (d, m) := by
    unfold splitDDMM
    simp [h1, h2, h3]
  constructor
  · unfold parseDateMaybank
    rw [hsplit]
    simp [hv, hf]
  · unfold parseCurrentAccountDate
    rw [h1]
    simp [h2, h3, hv]

/-- Witness for the amended C6 statement at the concrete scenario
01/12 with `now` 2024-01-15. -/
theorem future_rollback_amended_witness :
    (splitOnChar '/' "01/12".data).map String.mk = ["01", "12"]
    ∧ pyInt "01" = some 1
    ∧ pyInt "12" = some 12
    ∧ validDate (⟨2024, 1, 15⟩ : CalDate).year 12 1 = true
    ∧ 180 < dayDiff ⟨(⟨2024, 1, 15⟩ : CalDate).year, 12, 1⟩ ⟨2024, 1, 15⟩
    ∧ (parseDateMaybank "01/12" none ⟨2024, 1, 15⟩
        = (if validDate ((⟨2024, 1, 15⟩ : CalDate).year - 1) 12 1 then
            fmtISO ((⟨2024, 1, 15⟩ : CalDate).year - 1) 12 1
          else "01/12")
      ∧ parseCurrentAccountDate "01/12" none ⟨2024, 1, 15⟩
        = fmtISO (⟨2024, 1, 15⟩ : CalDate).year 12 1) := by
  refine ⟨by decide, by decide, by decide, by decide, by decide,
    future_rollback_amended "01/12" "01" "12" 1 12 ⟨2024, 1, 15⟩
      (by decide) (by decide) (by decide) (by decide) (by decide)⟩
